import Mathlib

/-!
Verification of the SimplePlot / Sparkline++ rendering core (Sparkline.h).

The C++ core is embedded shallowly over exact rationals (ℚ): the source's
float arithmetic is modelled by exact arithmetic, and the one place where a
float NaN (0/0) would arise — the quantizer's fraction when maxv = minv —
is modelled as an `Option` failure, since the subsequent int cast of NaN is
undefined.  size_t arithmetic that can wrap is modelled with explicit
`% 2^64`.  The build configuration modelled is the shipped one:
USE_UNICODE_GRAPHICS defined (TICKS = 8) and WITH_TEXTDECORATOR undefined
(RED/BLUE/GREEN are identity, so `print_colored` is unused).

The rendered output is modelled as the exact sequence of tokens written to
the `std::ostringstream`, one token per `<<` item: glyphs, box-drawing
characters, literal strings, numeric values, and padding widths.
-/

namespace Sparkline

/-- `std::numeric_limits<float>::max()` = (2 − 2⁻²³)·2¹²⁷, exactly. -/
def fltMax : ℚ := 2 ^ 128 - 2 ^ 104

/-- `std::numeric_limits<float>::min()` = 2⁻¹²⁶ (smallest positive normal),
exactly.  Note this is a small positive number, not the lowest float. -/
def fltMinPos : ℚ := 1 / 2 ^ 126

/-- Digit-count recursion with explicit fuel (the fuel only bounds the
recursion depth; `n` itself is always enough fuel). -/
def charLenAux : ℕ → ℕ → ℕ
  | 0, _ => 0
  | _, 0 => 0
  | fuel + 1, n => charLenAux fuel (n / 10) + 1

/-- `SparklineHelpers::CharLength(n) = ceil(log10(n+1))` in exact
arithmetic: 0 for `n = 0` and the decimal digit count otherwise (the
least `k` with `10^k > n`). -/
def CharLength (n : ℕ) : ℕ := charLenAux n n

/-- Lines 288–297: use provided min/max values or adapt to the data range.
`minv = min(minv, FLT_MAX); maxv = max(maxv, FLT_MIN);` then the data is
scanned only when both still equal their sentinel defaults.  The single
C++ loop updating both accumulators is written as two folds over the same
index range. -/
def resolveRange (dataF : ℕ → ℚ) (N : ℕ) (minv maxv : ℚ) : ℚ × ℚ :=
  let minv := min minv fltMax
  let maxv := max maxv fltMinPos
  if minv = fltMax ∧ maxv = fltMinPos then
    ((List.range N).foldl (fun m i => min m (dataF i)) minv,
     (List.range N).foldl (fun m i => max m (dataF i)) maxv)
  else
    (minv, maxv)

/-- Lines 299–314: resolve the effective column count.
`max_width` is the terminal width (a `size_t` from an `unsigned short`),
minus `ENCLOSURE_WIDTH = PREC + 8 = 20` when a box is drawn — an unsigned
subtraction that wraps modulo 2⁶⁴ when the terminal is narrower than 20
columns.  A requested width of 0 resolves to the number of data points,
and the result is clamped from above by `max_width`. -/
def resolveWidth (termW : ℕ) (box : Bool) (reqW N : ℕ) : ℕ :=
  let maxW := if box then (termW + 2 ^ 64 - 20) % 2 ^ 64 else termW
  let w := if reqW = 0 then N else reqW
  if maxW < w then maxW else w

/-- Lines 321–346: the Binner.  `w_scale = W/N`; slice boundaries
`lower = i/w_scale`, `upper = (i+1)/w_scale`; a partial contribution from
the sample at `(size_t)lower` weighted by `1 - frac(lower)`, full
contributions from samples strictly between, a partial contribution from
the sample at `(size_t)upper` when in bounds, all divided by
`mass_per_bin = 1/w_scale`.  The `(size_t)` casts of the nonnegative
boundaries are floors. -/
def binOf (dataF : ℕ → ℚ) (N W i : ℕ) : ℚ :=
  let w_scale : ℚ := (W : ℚ) / (N : ℚ)
  let lower : ℚ := (i : ℚ) / w_scale
  let upper : ℚ := ((i : ℚ) + 1) / w_scale
  let lo : ℕ := ⌊lower⌋.toNat
  let up : ℕ := ⌊upper⌋.toNat
  let mass_per_bin : ℚ := 1 / w_scale
  let s : ℚ :=
    (1 - (lower - (lo : ℚ))) * dataF lo
      + ∑ j in Finset.Ico (lo + 1) up, dataF j
      + (if up < N then (upper - (up : ℚ)) * dataF up else 0)
  s / mass_per_bin

/-- Lines 400–403: quantize one bin value.
`_data = min(maxv, max(minv, v))`, `fraction = (_data-minv)/(maxv-minv)`,
`index = floor(fraction*levels)`.  When `maxv - minv = 0` the float code
computes `0.0f/0.0f = NaN` and then casts NaN to `int`, which is
undefined; this is modelled as `none`. -/
def quantLevel (levels : ℕ) (minv maxv v : ℚ) : Option ℤ :=
  if maxv - minv = 0 then none
  else some ⌊(min maxv (max minv v) - minv) / (maxv - minv) * (levels : ℚ)⌋

/-- One output token, corresponding to one `<<` item written to the
output stream.  Numeric formatting (`std::left`, `std::setw`) is
abstracted: `num` is a plain value, `numPad` a `setw(PREC)`-padded value,
`pad` records the computed `setw` width of a padding blank. -/
inductive Tok where
  | ch (c : Char)
  | str (s : String)
  | tick (i : ℕ)
  | num (q : ℚ)
  | numPad (q : ℚ)
  | natNum (n : ℕ)
  | pad (w : ℕ)
  | boxNW
  | boxNE
  | boxSW
  | boxSE
  | boxH
  | boxHTick
  | boxV
  | boxVTick
  deriving DecidableEq

/-- Lines 404–412: the glyph for one (column, row) cell.  Rows cover the
level range `[line*TICKS, line*TICKS + TICKS - 1]` with `TICKS = 8`:
below the range → blank, above → full block `ticks[TICKS-1]`, within →
`ticks[index - line*TICKS]`. -/
def cellTok (levels : ℕ) (minv maxv : ℚ) (lineMin lineMax : ℕ) (v : ℚ) :
    Option Tok :=
  match quantLevel levels minv maxv v with
  | none => none
  | some index =>
    if index < (lineMin : ℤ) then some (Tok.ch ' ')
    else if (lineMax : ℤ) < index then some (Tok.tick 7)
    else some (Tok.tick (index - (lineMin : ℤ)).toNat)

/-- Lines 428–431: the value annotated on an interior row of a multi-row
boxed plot: `(line*TICKS + 4) * (maxv - minv) / (rows*TICKS) + minv`.
Note the divisor is `rows*TICKS`, not the level count `rows*TICKS - 1`. -/
def midValue (rows line : ℕ) (minv maxv : ℚ) : ℚ :=
  ((line * 8 + 4 : ℕ) : ℚ) * (maxv - minv) / ((rows * 8 : ℕ) : ℚ) + minv

/-- Lines 415–433: the right box border and min/max value marks for one
plot row. -/
def rightAnnot (rows line : ℕ) (minv maxv : ℚ) : List Tok :=
  if rows = 1 then
    [Tok.boxVTick, Tok.str " min: ", Tok.numPad minv,
     Tok.str ", max: ", Tok.numPad maxv]
  else if line = rows - 1 then
    [Tok.boxVTick, Tok.str " max: ", Tok.num maxv]
  else if line = 0 then
    [Tok.boxVTick, Tok.str " min: ", Tok.num minv]
  else
    [Tok.boxVTick, Tok.str "      ", Tok.num (midValue rows line minv maxv)]

/-- Lines 356–384: the upper box border.  With an empty title: corners
around `W` horizontal bars.  A title longer than `W` is emitted on its
own line.  Otherwise the title is embedded with `filler/2` bars on the
left and the remaining `W - (filler/2 + |title|)` bars on the right.
`title.size()` (bytes) is modelled as `String.length` (the titles in
scope are ASCII). -/
def topToks (box : Bool) (title : String) (W : ℕ) : List Tok :=
  if box then
    if title = "" then
      Tok.boxNW :: (List.replicate W Tok.boxH ++ [Tok.boxNE, Tok.ch '\n'])
    else if W < title.length then
      [Tok.str title, Tok.ch '\n']
    else
      let filler := W - title.length
      Tok.boxNW ::
        (List.replicate (filler / 2) Tok.boxH
          ++ [Tok.str title]
          ++ List.replicate (W - (filler / 2 + title.length)) Tok.boxH
          ++ [Tok.boxNE, Tok.ch '\n'])
  else []

/-- Line 443: `x_ticks_separation = 2*sep + ceil(log10(N+1))` with
`sep = 2`. -/
def xTickSep (N : ℕ) : ℕ := 2 * 2 + CharLength N

/-- Line 444: `x_ticks_number = W / x_ticks_separation + 1`. -/
def xTickNumber (N W : ℕ) : ℕ := W / xTickSep N + 1

/-- Lines 447–451: tick mark columns: `i * x_ticks_separation` for
`i < x_ticks_number - 1`, then the last column `W - 1` (a `size_t`
subtraction, wrapping when `W = 0`). -/
def xTicks (N W : ℕ) : List ℕ :=
  (List.range (xTickNumber N W - 1)).map (fun i => i * xTickSep N)
    ++ [(W + 2 ^ 64 - 1) % 2 ^ 64]

/-- Lines 447–452: tick label values: `i * N / x_ticks_number` (integer
division) for `i < x_ticks_number - 1`, then exactly `N`. -/
def xTickValues (N W : ℕ) : List ℕ :=
  (List.range (xTickNumber N W - 1)).map (fun i => i * N / xTickNumber N W)
    ++ [N]

/-- Lines 457–465: the lower border glyphs: walking columns left to
right, emitting a tick glyph and advancing `next_tick` whenever the
column equals the next pending tick column, a plain bar otherwise.
(After the tick list is exhausted the C++ reads past the array; that
state is unreachable because the final tick sits at the final column.) -/
def bottomBorderGo : List ℕ → List ℕ → List Tok
  | [], _ => []
  | i :: is, [] => Tok.boxH :: bottomBorderGo is []
  | i :: is, t :: ts =>
    if i = t then Tok.boxHTick :: bottomBorderGo is ts
    else Tok.boxH :: bottomBorderGo is (t :: ts)

/-- Lines 474–505: the middle x-tick labels, tracking `current_col`
(a `size_t`, hence the `% 2^64` wraps).  For tick `i`:
`tmp = CharLength(values[i])`, `rw = tmp - tmp/2`,
`lw = CharLength(values[i-1]) / 2`, `tofill = sep - rw - lw` (unsigned),
then a `setw(tofill)` blank and the value are written.  The C++ loop
`for i = 1; i < x_ticks_number - 1` is written with its remaining
iteration count as the (structural) recursion argument. -/
def labelMiddleGo (sep : ℕ) (vals : List ℕ) (i col : ℕ) :
    ℕ → List Tok × ℕ
  | 0 => ([], col)
  | left + 1 =>
    let tmp := CharLength (vals.getD i 0)
    let col1 := (col + tmp) % 2 ^ 64
    let rw := tmp - tmp / 2
    let lw := CharLength (vals.getD (i - 1) 0) / 2
    let tofill := (sep + 2 ^ 64 + 2 ^ 64 - rw - lw) % 2 ^ 64
    let rest := labelMiddleGo sep vals (i + 1) ((col1 + tofill) % 2 ^ 64) left
    (Tok.pad tofill :: Tok.natNum (vals.getD i 0) :: rest.1, rest.2)

/-- Lines 468–513: the x-tick label line: `"\n "`, the first value,
the middle labels, a final `setw(x_ticks[last] - current_col -
CharLength(N) + 2)` blank (unsigned arithmetic), the last value, and the
`std::endl` newline. -/
def labelLineToks (N W : ℕ) : List Tok :=
  let sep := xTickSep N
  let n := xTickNumber N W
  let vals := xTickValues N W
  let mid := labelMiddleGo sep vals 1 1 (n - 1 - 1)
  [Tok.ch '\n', Tok.ch ' ', Tok.natNum (vals.getD 0 0)]
    ++ mid.1
    ++ [Tok.pad (((W + 2 ^ 64 - 1) % 2 ^ 64 + 2 + 2 ^ 64 + 2 ^ 64
          - mid.2 - CharLength N) % 2 ^ 64),
        Tok.natNum (vals.getD (n - 1) 0), Tok.ch '\n']

/-- Lines 440–514: the whole lower section (newline, lower border with
tick marks, corners, then the label line); emitted only when the box is
enabled. -/
def bottomToks (N W : ℕ) : List Tok :=
  Tok.ch '\n' :: Tok.boxSW ::
    (bottomBorderGo (List.range W) (xTicks N W)
      ++ [Tok.boxSE]
      ++ labelLineToks N W)

/-- Sequential traversal aborting on the first `none`, mirroring the
fact that a single NaN cell makes the whole C++ render undefined. -/
def mapOpt (f : α → Option β) : List α → Option (List β)
  | [] => some []
  | a :: l =>
    match f a, mapOpt f l with
    | some b, some bs => some (b :: bs)
    | _, _ => none

/-- Lines 391–437: one plot row: optional left border, one cell per
column, optional right border annotations, and a newline after every row
but the last (`line > 0`). -/
def lineToks (dataF : ℕ → ℚ) (N W rows levels line : ℕ) (box : Bool)
    (minv maxv : ℚ) : Option (List Tok) :=
  (mapOpt
    (fun i =>
      cellTok levels minv maxv (line * 8) (line * 8 + 7) (binOf dataF N W i))
    (List.range W)).map
    (fun cells =>
      (if box then [Tok.boxV] else []) ++ cells
        ++ (if box then rightAnnot rows line minv maxv else [])
        ++ (if 0 < line then [Tok.ch '\n'] else []))

/-- Lines 387–437: all plot rows, `line` running from `rows - 1` down
to `0`, with `levels = rows*TICKS - 1`. -/
def bodyToks (dataF : ℕ → ℚ) (N W rows : ℕ) (box : Bool) (minv maxv : ℚ) :
    Option (List Tok) :=
  (mapOpt
    (fun line => lineToks dataF N W rows (rows * 8 - 1) line box minv maxv)
    (List.range rows).reverse).map List.flatten

/-- The render may fail: `notImplemented` models the
`throw std::runtime_error("Woops! Not implemented..")` at line 318, and
`nanLevel` models the undefined NaN→int cast in the quantizer when the
resolved range is degenerate. -/
inductive RenderError where
  | notImplemented
  | nanLevel
  deriving DecidableEq

/-- Lines 277–517: the core flat-argument `Sparkline` render.  Resolve
the min/max range and effective width, fail when the width exceeds the
sample count, otherwise emit top border, plot body and bottom section.
`color` (`print_colored`) is unused in the modelled build, where
WITH_TEXTDECORATOR is undefined and the colour macros are identity. -/
def Sparkline (dataF : ℕ → ℚ) (N rows reqW : ℕ) (box color : Bool)
    (title : String) (minv maxv : ℚ) (termW : ℕ) :
    Except RenderError (List Tok) :=
  let r := resolveRange dataF N minv maxv
  let W := resolveWidth termW box reqW N
  if N < W then Except.error RenderError.notImplemented
  else
    match bodyToks dataF N W rows box r.1 r.2 with
    | none => Except.error RenderError.nanLevel
    | some body =>
      Except.ok (topToks box title W ++ body
        ++ (if box then bottomToks N W else []))

/-- Lines 206–246: the `Configuration` parameter object with the
constructor's default values. -/
structure Configuration where
  this_many_lines_high : ℕ := 1
  this_many_characters_wide : ℕ := 0
  enclose_in_box : Bool := false
  print_colored : Bool := true
  title : String := ""
  minv : ℚ := fltMax
  maxv : ℚ := fltMinPos

/-- Lines 553–569: the Configuration overload of the pointer-based
`Sparkline`, delegating to the flat-argument version field by field. -/
def SparklineCfg (dataF : ℕ → ℚ) (N : ℕ) (config : Configuration)
    (termW : ℕ) : Except RenderError (List Tok) :=
  Sparkline dataF N config.this_many_lines_high
    config.this_many_characters_wide config.enclose_in_box
    config.print_colored config.title config.minv config.maxv termW

/-- Lines 583–608: the `std::vector` overload: calls the pointer
overload on the vector's contiguous data (`&data[0]`, `data.size()`);
element `i` of the contiguous buffer is `data.getD i 0`. -/
def SparklineVec (data : List ℚ) (rows reqW : ℕ) (box color : Bool)
    (title : String) (minv maxv : ℚ) (termW : ℕ) :
    Except RenderError (List Tok) :=
  Sparkline (fun i => data.getD i 0) data.length rows reqW box color title
    minv maxv termW

/-- Lines 640–654: the `std::vector` + Configuration overload. -/
def SparklineVecCfg (data : List ℚ) (config : Configuration) (termW : ℕ) :
    Except RenderError (List Tok) :=
  SparklineVec data config.this_many_lines_high
    config.this_many_characters_wide config.enclose_in_box
    config.print_colored config.title config.minv config.maxv termW

/-- The token list of a successful render (the returned string), empty
on a thrown exception. -/
def okToks (r : Except RenderError (List Tok)) : List Tok :=
  match r with
  | Except.ok t => t
  | Except.error _ => []

/-! ## Claim theorems -/

/-- Pointwise form of C1: at full width `W = N` every slice is exactly
`[i, i+1)`, so each bin reproduces its sample. -/
theorem binOf_self (dataF : ℕ → ℚ) (N : ℕ) (hN : 1 ≤ N) (i : ℕ) :
    binOf dataF N N i = dataF i := by
  have hNz : (N : ℚ) ≠ 0 := Nat.cast_ne_zero.mpr (by omega)
  have h1 : ((i : ℚ) + 1) = ((i + 1 : ℕ) : ℚ) := by push_cast; ring
  simp only [binOf, div_self hNz, div_one, h1, Int.floor_natCast,
    Int.toNat_natCast, Finset.Ico_self, Finset.sum_empty, sub_self,
    one_div, inv_one, zero_mul, ite_self, add_zero, sub_zero, one_mul]

/-- C1: for every series of length `N ≥ 1`, rendering with column count
`W = N` makes the Binner the identity: bin `i` equals sample `i`
exactly, and hence the sum over all bins equals the sum over the
series. -/
theorem binner_identity_when_columns_eq_samples (dataF : ℕ → ℚ) (N : ℕ)
    (hN : 1 ≤ N) :
    (∀ i, i < N → binOf dataF N N i = dataF i) ∧
    ∑ i in Finset.range N, binOf dataF N N i
      = ∑ i in Finset.range N, dataF i :=
  ⟨fun i _ => binOf_self dataF N hN i,
   Finset.sum_congr rfl fun i _ => binOf_self dataF N hN i⟩

/-- Witness for C1 at the concrete two-sample series `[3, 5]`. -/
theorem binner_identity_when_columns_eq_samples_witness :
    binOf (fun j => ([3, 5] : List ℚ).getD j 0) 2 2 1 = 5 := by
  have h := (binner_identity_when_columns_eq_samples
    (fun j => ([3, 5] : List ℚ).getD j 0) 2 (by norm_num)).1 1 (by norm_num)
  simpa using h

/-- C4: with a proper range `minValue < maxValue` the quantizer always
produces a level, the level stays within `[0, L]` for
`L = rows*levelsPerRow - 1 = rows*8 - 1`, and values outside the range
clamp to exactly `0` (below) or exactly `L` (above). -/
theorem quantizer_clamps_out_of_range_values (rows : ℕ) (minv maxv v : ℚ)
    (hrows : 1 ≤ rows) (hlt : minv < maxv) :
    ∃ idx : ℤ, quantLevel (rows * 8 - 1) minv maxv v = some idx ∧
      0 ≤ idx ∧ idx ≤ ((rows * 8 - 1 : ℕ) : ℤ) ∧
      (v < minv → idx = 0) ∧
      (maxv < v → idx = ((rows * 8 - 1 : ℕ) : ℤ)) := by
  have hne : maxv - minv ≠ 0 := sub_ne_zero.mpr (ne_of_gt hlt)
  have hpos : (0 : ℚ) < maxv - minv := sub_pos.mpr hlt
  refine ⟨_, by rw [quantLevel, if_neg hne], ?_, ?_, ?_, ?_⟩
  · refine Int.le_floor.mpr ?_
    have h1 : minv ≤ min maxv (max minv v) :=
      le_min (le_of_lt hlt) (le_max_left _ _)
    have h2 : (0 : ℚ) ≤ (min maxv (max minv v) - minv) / (maxv - minv) :=
      div_nonneg (sub_nonneg.mpr h1) (le_of_lt hpos)
    exact_mod_cast mul_nonneg h2 (Nat.cast_nonneg _)
  · have h2 : min maxv (max minv v) - minv ≤ maxv - minv :=
      sub_le_sub_right (min_le_left _ _) _
    have h3 : (min maxv (max minv v) - minv) / (maxv - minv) ≤ 1 :=
      (div_le_one hpos).mpr h2
    calc ⌊(min maxv (max minv v) - minv) / (maxv - minv)
            * ((rows * 8 - 1 : ℕ) : ℚ)⌋
        ≤ ⌊((rows * 8 - 1 : ℕ) : ℚ)⌋ := by
          apply Int.floor_le_floor
          exact mul_le_of_le_one_left (by positivity) h3
      _ = ((rows * 8 - 1 : ℕ) : ℤ) := Int.floor_natCast _
  · intro hv
    rw [max_eq_left (le_of_lt hv), min_eq_right (le_of_lt hlt)]
    simp
  · intro hv
    rw [max_eq_right (le_of_lt (lt_trans hlt hv)), min_eq_left (le_of_lt hv),
      div_self hne, one_mul, Int.floor_natCast]

/-- Witness for C4 at `rows = 1`, range `[0, 1]`, value `2` above the
range: the level is exactly `L = 7`. -/
theorem quantizer_clamps_out_of_range_values_witness :
    quantLevel 7 0 1 2 = some 7 := by
  obtain ⟨idx, h1, -, -, -, h5⟩ :=
    quantizer_clamps_out_of_range_values 1 0 1 2 (by norm_num) (by norm_num)
  rw [h5 (by norm_num)] at h1
  simpa using h1

/-- C3 (amended): the render throws `InvalidConfiguration`
("Woops! Not implemented..") exactly when the effective column count —
the requested width, or `N` when the request is 0, clamped by the
terminal budget — exceeds the sample count `N`.  In particular `N = 0`
with requested width 0 gives effective width 0 and is not a failure. -/
theorem throws_iff_effective_width_exceeds_samples (dataF : ℕ → ℚ)
    (N rows reqW : ℕ) (box color : Bool) (title : String) (minv maxv : ℚ)
    (termW : ℕ) :
    Sparkline dataF N rows reqW box color title minv maxv termW
        = Except.error RenderError.notImplemented
      ↔ N < resolveWidth termW box reqW N := by
  unfold Sparkline
  by_cases h : N < resolveWidth termW box reqW N
  · simp [h]
  · simp only [if_neg h, iff_false_intro h, iff_false]
    rcases hb : bodyToks dataF N (resolveWidth termW box reqW N) rows box
        (resolveRange dataF N minv maxv).1
        (resolveRange dataF N minv maxv).2 with _ | body
    · simp [hb]
    · simp [hb]

/-- Counterexample to C3: an empty series (`N = 0`) with requested
width 0 does not signal `InvalidConfiguration`: the render succeeds and
produces an empty body, contradicting the claim that `N = 0` fails. -/
theorem empty_series_renders_without_error :
    Sparkline (fun _ => 0) 0 1 0 false true "" fltMax fltMinPos 80
      = Except.ok [] := by
  simp [Sparkline, resolveRange, resolveWidth, bodyToks, lineToks, mapOpt,
    topToks]

/-- C2 (code bug): on constant data (`[5, 5]`, default min/max) the
resolved range degenerates to `minValue = maxValue = 5` and the
quantizer computes `fraction = 0.0f/0.0f` — a division by zero whose
NaN result is then cast to `int` (undefined behaviour), so no column
renders the claimed top-level glyph.  The embedded render reaches the
division-by-zero state. -/
theorem flat_range_render_hits_division_by_zero :
    Sparkline (fun j => ([5, 5] : List ℚ).getD j 0) 2 1 0 false true ""
        fltMax fltMinPos 80
      = Except.error RenderError.nanLevel := by
  have hmin : min fltMax (5 : ℚ) = 5 := min_eq_right (by norm_num [fltMax])
  have hmax : max fltMinPos (5 : ℚ) = 5 :=
    max_eq_right (by norm_num [fltMinPos])
  simp [Sparkline, resolveRange, resolveWidth, bodyToks, lineToks, mapOpt,
    cellTok, quantLevel, hmin, hmax, List.range_succ]

/-- Counterexample to C7: supplying only `minValue = 0` on the series
`[1, 2, 3]` leaves `maxValue` at the sentinel `FLT_MIN` (≈1.18e-38)
instead of resolving it to the data's maximum `3`. -/
theorem partial_range_override_leaves_sentinel :
    resolveRange (fun j => ([1, 2, 3] : List ℚ).getD j 0) 3 0 fltMinPos
        = (0, fltMinPos) ∧ fltMinPos ≠ 3 := by
  constructor
  · have h0 : min (0 : ℚ) fltMax = 0 := min_eq_left (by norm_num [fltMax])
    simp only [resolveRange, h0, max_self]
    rw [if_neg (fun h => by norm_num [fltMax] at h)]
  · norm_num [fltMinPos]

/-- C7 (amended): the data scan happens only when BOTH bounds are at
their sentinel defaults.  Supplying exactly one bound leaves the other
at its sentinel: with only `minValue` supplied, `maxValue` stays at
`FLT_MIN` (the smallest positive normal float, not the data's max);
with only `maxValue` supplied, `minValue` stays at `FLT_MAX`. -/
theorem range_scan_only_when_both_defaults (dataF : ℕ → ℚ) (N : ℕ)
    (minv maxv : ℚ) :
    (minv ≤ fltMax → minv ≠ fltMax →
      resolveRange dataF N minv fltMinPos = (minv, fltMinPos)) ∧
    (fltMinPos ≤ maxv → maxv ≠ fltMinPos →
      resolveRange dataF N fltMax maxv = (fltMax, maxv)) := by
  constructor
  · intro h1 h2
    simp only [resolveRange, min_eq_left h1, max_self]
    rw [if_neg (fun h => h2 h.1)]
  · intro h1 h2
    simp only [resolveRange, min_self, max_eq_left h1]
    rw [if_neg (fun h => h2 h.2)]

/-- Witness for C7 (amended): only `minValue = 5` supplied; the
resolved range keeps the sentinel upper bound. -/
theorem range_scan_only_when_both_defaults_witness :
    resolveRange (fun _ => (0 : ℚ)) 1 5 fltMinPos = (5, fltMinPos) :=
  (range_scan_only_when_both_defaults (fun _ => 0) 1 5 0).1
    (by norm_num [fltMax]) (by norm_num [fltMax])

/-- Counterexample to C8: for a 3-row plot with range `[0, 23]`, the
interior row (`line = 1`, midpoint level `1*8 + 4 = 12`) is annotated
with `12 * (23 - 0) / (3*8) + 0 = 23/2`, but the claimed inverse of the
quantizer mapping (`level / L` with `L = 3*8 - 1 = 23`) gives
`12 / 23 * 23 = 12 ≠ 23/2`. -/
theorem interior_label_differs_from_quantizer_inverse :
    rightAnnot 3 1 0 23
        = [Tok.boxVTick, Tok.str "      ", Tok.num (23 / 2)] ∧
    ((1 * 8 + 4 : ℚ) / ((3 * 8 - 1 : ℕ) : ℚ)) * (23 - 0) + 0 = 12 ∧
    (23 / 2 : ℚ) ≠ 12 := by
  refine ⟨?_, by norm_num, by norm_num⟩
  norm_num [rightAnnot, midValue]

/-- C8 (amended): a single-row boxed render carries both `min:` and
`max:` labels on its one row; in a multi-row boxed render the top row
(`line = rows-1`) shows the `max:` label, the bottom row (`line = 0`)
the `min:` label, and every interior row shows the value
`(line*levelsPerRow + levelsPerRow/2) * (maxValue-minValue) /
(rows*levelsPerRow) + minValue` — its midpoint level scaled by
`rows*levelsPerRow`, not by `L = rows*levelsPerRow - 1`. -/
theorem right_border_annotation_labels (rows line : ℕ) (minv maxv : ℚ) :
    rightAnnot 1 line minv maxv
        = [Tok.boxVTick, Tok.str " min: ", Tok.numPad minv,
           Tok.str ", max: ", Tok.numPad maxv] ∧
    (2 ≤ rows → rightAnnot rows (rows - 1) minv maxv
        = [Tok.boxVTick, Tok.str " max: ", Tok.num maxv]) ∧
    (2 ≤ rows → rightAnnot rows 0 minv maxv
        = [Tok.boxVTick, Tok.str " min: ", Tok.num minv]) ∧
    (2 ≤ rows → 1 ≤ line → line < rows - 1 →
      rightAnnot rows line minv maxv
        = [Tok.boxVTick, Tok.str "      ",
           Tok.num (((line * 8 + 4 : ℕ) : ℚ) * (maxv - minv)
             / ((rows * 8 : ℕ) : ℚ) + minv)]) := by
  refine ⟨by simp [rightAnnot], ?_, ?_, ?_⟩
  · intro h2
    rw [rightAnnot, if_neg (by omega), if_pos rfl]
  · intro h2
    rw [rightAnnot, if_neg (by omega), if_neg (by omega), if_pos rfl]
  · intro h2 hl1 hl2
    rw [rightAnnot, if_neg (by omega), if_neg (by omega), if_neg (by omega),
      midValue]

/-- Witness for C8 (amended) at `rows = 3`, `line = 1`, range
`[0, 24]`: the interior annotation shows `12 * 24 / 24 + 0 = 12`. -/
theorem right_border_annotation_labels_witness :
    rightAnnot 3 1 0 24 = [Tok.boxVTick, Tok.str "      ", Tok.num 12] := by
  have h := (right_border_annotation_labels 3 1 0 24).2.2.2
    (by norm_num) (by norm_num) (by norm_num)
  rw [h]
  norm_num

/-- Counterexample to C9: on a 10-column terminal with the box enabled,
`max_width -= ENCLOSURE_WIDTH` underflows (size_t wrap), so no clamping
happens at all: a 50-sample series with requested width 0 gets an
effective body of 50 columns, which exceeds the terminal width minus
the box overhead (10 - 20). -/
theorem width_clamp_underflows_on_narrow_terminal :
    resolveWidth 10 true 0 50 = 50 ∧
    ¬ ((resolveWidth 10 true 0 50 : ℤ) ≤ (10 : ℤ) - 20) := by
  constructor
  · decide
  · decide

/-- C9 (amended): provided the detected terminal width is at least the
box overhead of 20 columns (so the unsigned subtraction does not wrap),
the effective plot body width never exceeds the terminal width minus
20 with the box enabled (nor the plain terminal width without it), and
a requested width of 0 resolves to `N` before the clamp. -/
theorem width_clamped_to_terminal_budget (termW reqW N : ℕ)
    (h20 : 20 ≤ termW) (h16 : termW ≤ 65535) :
    resolveWidth termW true reqW N ≤ termW - 20 ∧
    resolveWidth termW false reqW N ≤ termW ∧
    resolveWidth termW true 0 N = min N (termW - 20) := by
  have hm : (termW + 2 ^ 64 - 20) % 2 ^ 64 = termW - 20 := by
    have he : termW + 2 ^ 64 - 20 = (termW - 20) + 2 ^ 64 := by omega
    rw [he, Nat.add_mod_right]
    exact Nat.mod_eq_of_lt (by omega)
  refine ⟨?_, ?_, ?_⟩ <;>
    simp only [resolveWidth, hm] <;> split_ifs <;> omega

/-- Witness for C9 (amended): requesting 1000 columns on an 80-column
terminal with the box yields at most 60 columns, and a request of 0
with 50 samples resolves to `min 50 60`. -/
theorem width_clamped_to_terminal_budget_witness :
    resolveWidth 80 true 1000 50 ≤ 60 ∧
    resolveWidth 80 true 0 50 = min 50 60 := by
  obtain ⟨h1, -, h3⟩ :=
    width_clamped_to_terminal_budget 80 1000 50 (by norm_num) (by norm_num)
  exact ⟨h1, h3⟩

/-- Counterexample to C5: 5 samples plotted at width 3 (a legal render:
`resolveWidth 80 true 3 5 = 3 ≤ 5`).  The tick separation is
`2*2 + CharLength 5 = 5 > 3`, so `x_ticks_number = 1` and the only tick
is the final one at column 2 labelled `5`: the bottom axis label line
contains no tick labelled `0`, and no tick sits at column 0. -/
theorem narrow_plot_axis_lacks_zero_tick :
    resolveWidth 80 true 3 5 = 3 ∧
    xTicks 5 3 = [2] ∧
    xTickValues 5 3 = [5] ∧
    Tok.natNum 0 ∉ labelLineToks 5 3 := by
  refine ⟨by decide, by decide, by decide, by decide⟩

/-- C5 (amended): the bottom axis always ends with a tick at the last
column `W - 1` labelled exactly `N`; a tick at column 0 labelled `0` is
present whenever there are at least two ticks (i.e. `W ≥
x_ticks_separation`), and every non-final tick `i` is labelled
`i * N / x_ticks_number` (integer division).  (When `W` is below the
separation, the 0 tick is absent — see the counterexample.) -/
theorem axis_ticks_first_last_and_values (N W : ℕ) (hW : 1 ≤ W)
    (hW64 : W ≤ 2 ^ 64) (h2 : 2 ≤ xTickNumber N W) :
    (xTicks N W).head? = some 0 ∧
    (xTickValues N W).head? = some 0 ∧
    (xTicks N W).getLast? = some (W - 1) ∧
    (xTickValues N W).getLast? = some N ∧
    ∀ i, i < xTickNumber N W - 1 →
      (xTickValues N W).getD i 0 = i * N / xTickNumber N W := by
  obtain ⟨k, hk⟩ : ∃ k, xTickNumber N W - 1 = k + 1 :=
    ⟨xTickNumber N W - 2, by omega⟩
  have hmod : (W + 2 ^ 64 - 1) % 2 ^ 64 = W - 1 := by
    have he : W + 2 ^ 64 - 1 = (W - 1) + 2 ^ 64 := by omega
    rw [he, Nat.add_mod_right]
    exact Nat.mod_eq_of_lt (by omega)
  refine ⟨?_, ?_, ?_, ?_, ?_⟩
  · rw [xTicks, hk, List.range_succ_eq_map]
    simp
  · rw [xTickValues, hk, List.range_succ_eq_map]
    simp
  · rw [xTicks, List.getLast?_concat, hmod]
  · rw [xTickValues, List.getLast?_concat]
  · intro i hi
    rw [xTickValues, List.getD_append _ _ _ _ (by simpa using hi),
      List.getD_eq_getElem?_getD, List.getElem?_map,
      List.getElem?_range hi]
    rfl

/-- Witness for C5 (amended) with 21 samples at width 21: four ticks,
the first at column 0 labelled 0, the last labelled exactly 21, and the
second labelled `1 * 21 / 4 = 5`. -/
theorem axis_ticks_first_last_and_values_witness :
    (xTicks 21 21).head? = some 0 ∧
    (xTickValues 21 21).getLast? = some 21 ∧
    (xTickValues 21 21).getD 1 0 = 1 * 21 / xTickNumber 21 21 := by
  obtain ⟨h1, -, -, h4, h5⟩ :=
    axis_ticks_first_last_and_values 21 21 (by decide) (by decide) (by decide)
  exact ⟨h1, h4, h5 1 (by decide)⟩

/-- C6 (amended): there is no box-less fallback for narrow plots: with
`drawBox = true`, every render that returns a string at all emits
border-drawing characters (in particular the south-west corner), for
any effective column count including `columns < 4`. -/
theorem boxed_render_always_contains_borders (dataF : ℕ → ℚ)
    (N rows reqW : ℕ) (color : Bool) (title : String) (minv maxv : ℚ)
    (termW : ℕ)
    (hok : (Sparkline dataF N rows reqW true color title minv maxv
      termW).isOk = true) :
    Tok.boxSW ∈ okToks (Sparkline dataF N rows reqW true color title minv
      maxv termW) := by
  simp only [Sparkline] at hok ⊢
  by_cases h : N < resolveWidth termW true reqW N
  · rw [if_pos h] at hok
    simp [Except.isOk, Except.toBool] at hok
  · rw [if_neg h] at hok ⊢
    rcases hb : bodyToks dataF N (resolveWidth termW true reqW N) rows true
        (resolveRange dataF N minv maxv).1
        (resolveRange dataF N minv maxv).2 with _ | body
    · rw [hb] at hok
      simp [Except.isOk, Except.toBool] at hok
    · simp [okToks, bottomToks]

/-- Witness for C6 (amended): a boxed render that succeeds (empty
series, zero rows) contains the south-west corner. -/
theorem boxed_render_always_contains_borders_witness :
    Tok.boxSW ∈ okToks (Sparkline (fun _ => 0) 0 0 0 true true "" fltMax
      fltMinPos 80) :=
  boxed_render_always_contains_borders (fun _ => 0) 0 0 0 true "" fltMax
    fltMinPos 80
    (by simp [Sparkline, resolveRange, resolveWidth, bodyToks, mapOpt,
      Except.isOk, Except.toBool])

/-- Counterexample to C6: a boxed render with effective width 1 (< 4)
still draws the full border — the output contains the north-west corner
(and the rest of the box), not box-less output. -/
theorem small_boxed_render_still_draws_borders :
    resolveWidth 80 true 1 1 = 1 ∧
    Tok.boxNW ∈ okToks (Sparkline (fun _ => (10 : ℚ))
      1 1 1 true true "" 0 10 80) := by
  refine ⟨by decide, ?_⟩
  have h1 : min (0 : ℚ) fltMax = 0 := min_eq_left (by norm_num [fltMax])
  have h2 : max (10 : ℚ) fltMinPos = 10 :=
    max_eq_left (by norm_num [fltMinPos])
  have hrange : resolveRange (fun _ => (10 : ℚ)) 1 0 10 = (0, 10) := by
    simp only [resolveRange, h1, h2]
    rw [if_neg (fun h => by norm_num [fltMax] at h)]
  have hW : resolveWidth 80 true 1 1 = 1 := by decide
  have hbin : binOf (fun _ => (10 : ℚ)) 1 1 0 = 10 := by
    norm_num [binOf]
  have hq : quantLevel 7 0 10 10 = some 7 := by
    rw [quantLevel, if_neg (by norm_num)]
    norm_num [max_def, min_def]
  have hcell : cellTok 7 0 10 0 7 10 = some (Tok.tick 7) := by
    rw [cellTok, hq]
    simp
  simp only [Sparkline, hrange, hW]
  rw [if_neg (by norm_num)]
  simp only [bodyToks, lineToks, mapOpt, List.range_succ, List.range_zero,
    List.nil_append, List.reverse_cons, List.reverse_nil, List.singleton_append]
  simp [hbin, hcell, okToks, topToks, mapOpt]

/-- C10: the Configuration overload renders identically to the
flat-argument `Sparkline` called with the configuration's fields
(height, width, box, color, title, minv, maxv) in that order, and
the vector overloads delegate to the pointer-based render on the
vector's contiguous data (`&data[0]` with `data.size()` elements). -/
theorem overloads_delegate_to_flat_sparkline (dataF : ℕ → ℚ)
    (data : List ℚ) (N : ℕ) (config : Configuration) (rows reqW : ℕ)
    (box color : Bool) (title : String) (minv maxv : ℚ) (termW : ℕ) :
    SparklineCfg dataF N config termW
        = Sparkline dataF N config.this_many_lines_high
            config.this_many_characters_wide config.enclose_in_box
            config.print_colored config.title config.minv config.maxv
            termW ∧
    SparklineVec data rows reqW box color title minv maxv termW
        = Sparkline (fun i => data.getD i 0) data.length rows reqW box
            color title minv maxv termW ∧
    SparklineVecCfg data config termW
        = SparklineVec data config.this_many_lines_high
            config.this_many_characters_wide config.enclose_in_box
            config.print_colored config.title config.minv config.maxv
            termW :=
  ⟨rfl, rfl, rfl⟩

end Sparkline
